import Mathlib

/-!
Verification of the natural-language specification of
rust-lightning-bitcoinrpc (src/main.rs) against a shallow embedding of
its code.  Each section names the source function it embeds and the
source lines it was translated from.
-/

/-! ### Persistent monitor store: `ChannelMonitor::add_update_monitor`
    (src/main.rs lines 204-263)

The durable-write protocol touches three on-disk names derived from the
channel key: the final snapshot name, the `.tmp` name and the `.bk` name.
File contents are modelled as `Blob` (`empty` is the freshly created,
not-yet-written temporary file); the filesystem state is the contents
found under each of the three names.  Each primitive filesystem call of
the source is one `FsStep`; an oracle `fail : FsStep → Bool` decides
which call errors (any `Err` makes the `try_fs!` macro return
`ChannelMonitorUpdateErr::TemporaryFailure`).  `FsStep.syncDir` is a
step the embedding provides but the code never performs: an fsync of the
containing directory (the source comment at lines 216-218 notes that
this is needed and missing, "TODO: Fix this with the libc crate!").
The `fs::metadata(&filename)` call (lines 236-245) is modelled by a
`StatOutcome` oracle: `okFile` (metadata of a regular file), `okNotFile`
(exists but is not a regular file, aborting with `TemporaryFailure`),
`errNotFound` (no backup needed) and `errOther` (any other error kind:
the code sets `need_bk = true` and continues). -/

inductive Blob
  | empty
  | data (n : Nat)
deriving DecidableEq

/-- Contents under the final, temporary and backup names of one channel key. -/
structure FSState where
  final : Option Blob
  tmp : Option Blob
  bk : Option Blob
deriving DecidableEq

inductive FsStep
  | createTmp   -- fs::File::create(&tmp_filename)            (line 230)
  | writeTmp    -- monitor.write_for_disk(&mut f)             (line 231)
  | syncTmp     -- f.sync_all() on the temporary file         (line 232)
  | statFinal   -- fs::metadata(&filename)                    (line 236)
  | copyBk      -- fs::copy(&filename, &bk_filename)          (line 248)
  | openBk      -- fs::File::open(&bk_filename)               (line 250)
  | syncBk      -- f.sync_all() on the backup file            (line 251)
  | renameTmp   -- fs::rename(&tmp_filename, &filename)       (line 254)
  | openFinal   -- fs::File::open(&filename)                  (line 256)
  | syncFinal   -- f.sync_all() on the renamed final file     (line 257)
  | removeBk    -- fs::remove_file(&bk_filename)              (line 260)
  | syncDir     -- fsync of the containing directory: never performed by the code
deriving DecidableEq

inductive StatOutcome
  | okFile
  | okNotFile
  | errNotFound
  | errOther
deriving DecidableEq

inductive ChannelMonitorUpdateErr
  | TemporaryFailure
  | PermanentFailure
deriving DecidableEq

/-- Result<(), ChannelMonitorUpdateErr>. -/
inductive UpdateResult
  | ok
  | err (e : ChannelMonitorUpdateErr)
deriving DecidableEq

/-- Outcome of the filesystem part of `add_update_monitor`: either some
filesystem call failed (`try_fs!` returned early) or every call
succeeded.  The trace lists the successfully performed calls in
execution order. -/
inductive FsRun
  | failed (state : FSState) (trace : List FsStep)
  | succeeded (state : FSState) (trace : List FsStep)
deriving DecidableEq

/-- Lines 254-261: `fs::rename`, then `File::open(&filename)` +
`sync_all()` on the renamed file, then (when a backup was made)
`fs::remove_file(&bk_filename)`. -/
def renamePhase (fail : FsStep → Bool) (needBk : Bool) (s : FSState) (tr : List FsStep) : FsRun :=
  if fail .renameTmp then .failed s tr
  else if fail .openFinal then
    .failed { s with final := s.tmp, tmp := none } (tr ++ [.renameTmp])
  else if fail .syncFinal then
    .failed { s with final := s.tmp, tmp := none } (tr ++ [.renameTmp, .openFinal])
  else if needBk then
    if fail .removeBk then
      .failed { s with final := s.tmp, tmp := none } (tr ++ [.renameTmp, .openFinal, .syncFinal])
    else
      .succeeded { s with final := s.tmp, tmp := none, bk := none }
        (tr ++ [.renameTmp, .openFinal, .syncFinal, .removeBk])
  else
    .succeeded { s with final := s.tmp, tmp := none } (tr ++ [.renameTmp, .openFinal, .syncFinal])

/-- Lines 246-253: when a backup is needed, `fs::copy` the current final
file to the `.bk` name (failing when the source is absent), open it and
`sync_all()` it. -/
def backupPhase (fail : FsStep → Bool) (needBk : Bool) (s : FSState) (tr : List FsStep) : FsRun :=
  if needBk then
    if fail .copyBk then .failed s tr
    else
      match s.final with
      | none => .failed s tr
      | some b =>
        if fail .openBk then .failed { s with bk := some b } (tr ++ [.copyBk])
        else if fail .syncBk then .failed { s with bk := some b } (tr ++ [.copyBk, .openBk])
        else renamePhase fail needBk { s with bk := some b } (tr ++ [.copyBk, .openBk, .syncBk])
  else renamePhase fail needBk s tr

/-- The filesystem part of `ChannelMonitor::add_update_monitor`
(src/main.rs lines 229-261), from creating the temporary file through
deleting the backup. -/
def write_snapshot_fs (fail : FsStep → Bool) (stat : StatOutcome) (blob : Nat) (s : FSState) : FsRun :=
  if fail .createTmp then .failed s []
  else if fail .writeTmp then .failed { s with tmp := some .empty } [.createTmp]
  else if fail .syncTmp then .failed { s with tmp := some (.data blob) } [.createTmp, .writeTmp]
  else if stat = .okNotFile then
    .failed { s with tmp := some (.data blob) } [.createTmp, .writeTmp, .syncTmp, .statFinal]
  else
    backupPhase fail
      (match stat with | .okFile => true | .errOther => true | _ => false)
      { s with tmp := some (.data blob) } [.createTmp, .writeTmp, .syncTmp, .statFinal]

structure WriteResult where
  state : FSState
  trace : List FsStep
  result : UpdateResult
deriving DecidableEq

/-- `ChannelMonitor::add_update_monitor` (src/main.rs lines 204-263):
any filesystem error returns `ChannelMonitorUpdateErr::TemporaryFailure`
via the `try_fs!` macro (lines 205-212); if every filesystem call
succeeds the function returns the result of the inner
`self.monitor.add_update_monitor(...)` call (line 262), modelled by the
`inner` argument. -/
def add_update_monitor (fail : FsStep → Bool) (stat : StatOutcome) (blob : Nat)
    (inner : UpdateResult) (s : FSState) : WriteResult :=
  match write_snapshot_fs fail stat blob s with
  | .failed st tr => ⟨st, tr, .err .TemporaryFailure⟩
  | .succeeded st tr => ⟨st, tr, inner⟩

/-- In the rename phase, any failure leaves the final name holding
either its previous contents (rename not yet performed) or the former
temporary contents (rename performed); the backup name is untouched. -/
lemma renamePhase_failed_state {fail : FsStep → Bool} {needBk : Bool} {s st : FSState}
    {tr tr' : List FsStep} (h : renamePhase fail needBk s tr = .failed st tr') :
    st.final = s.final ∨ (st.final = s.tmp ∧ st.bk = s.bk) := by
  unfold renamePhase at h
  split at h
  · cases h; exact Or.inl rfl
  · split at h
    · cases h; exact Or.inr ⟨rfl, rfl⟩
    · split at h
      · cases h; exact Or.inr ⟨rfl, rfl⟩
      · split at h
        · split at h
          · cases h; exact Or.inr ⟨rfl, rfl⟩
          · cases h
        · cases h

/-- In the backup-and-rename phases, any failure leaves the final name
holding either its previous contents or the former temporary contents;
in the latter case the backup name holds a copy of the previous final
contents when a backup was required, and is untouched otherwise. -/
lemma backupPhase_failed_state {fail : FsStep → Bool} {needBk : Bool} {s st : FSState}
    {tr tr' : List FsStep} (h : backupPhase fail needBk s tr = .failed st tr') :
    st.final = s.final ∨
      (st.final = s.tmp ∧
        ((needBk = true ∧ st.bk = s.final) ∨ (needBk = false ∧ st.bk = s.bk))) := by
  unfold backupPhase at h
  split at h
  case isTrue hbk =>
    split at h
    · cases h; exact Or.inl rfl
    · split at h
      next hfin => cases h; exact Or.inl rfl
      next b hfin =>
        split at h
        · cases h; exact Or.inl rfl
        · split at h
          · cases h; exact Or.inl rfl
          · rcases renamePhase_failed_state h with h1 | ⟨h1, h2⟩
            · exact Or.inl h1
            · refine Or.inr ⟨h1, Or.inl ⟨hbk, ?_⟩⟩
              rw [hfin]
              exact h2
  case isFalse hbk =>
    rw [Bool.not_eq_true] at hbk
    rcases renamePhase_failed_state h with h1 | ⟨h1, h2⟩
    · exact Or.inl h1
    · exact Or.inr ⟨h1, Or.inr ⟨hbk, h2⟩⟩

/-- Any filesystem failure in `add_update_monitor` leaves the final
name holding either the previously committed blob, or (once the rename
has happened) the new blob with the previous contents preserved under
the backup name. -/
lemma write_snapshot_fs_failed_state {fail : FsStep → Bool} {stat : StatOutcome}
    {blob : Nat} {s st : FSState} {tr : List FsStep}
    (hstat : stat = .errNotFound → s.final = none) (hbk0 : s.bk = none)
    (h : write_snapshot_fs fail stat blob s = .failed st tr) :
    st.final = s.final ∨ (st.final = some (.data blob) ∧ st.bk = s.final) := by
  unfold write_snapshot_fs at h
  split at h
  · cases h; exact Or.inl rfl
  · split at h
    · cases h; exact Or.inl rfl
    · split at h
      · cases h; exact Or.inl rfl
      · split at h
        · cases h; exact Or.inl rfl
        · next hnot =>
          rcases backupPhase_failed_state h with h1 | ⟨h1, h2⟩
          · exact Or.inl h1
          · rcases h2 with ⟨_, h2⟩ | ⟨hF, h2⟩
            · exact Or.inr ⟨h1, h2⟩
            · cases stat with
              | okFile => simp at hF
              | okNotFile => exact absurd rfl hnot
              | errOther => simp at hF
              | errNotFound =>
                refine Or.inr ⟨h1, ?_⟩
                rw [hstat rfl]
                rw [show st.bk = s.bk from h2, hbk0]

/-- C1: For every call to write_snapshot (`ChannelMonitor::add_update_monitor`)
the durable-write steps occur in this order: the new blob is written to a
temporary file and fsynced first; then the existing snapshot is copied to a
backup name and the backup fsynced before the rename; then the temporary
file is renamed to the final name; and the backup is deleted last.  However,
after the rename the code fsyncs the renamed FILE (`File::open(&filename)`
followed by `sync_all()`, lines 256-257), never the containing DIRECTORY
entry: no `syncDir` step appears anywhere in the trace of a fully
successful update over an existing snapshot, contradicting the claimed
"containing directory entry is forced durably to storage" (the source
comment at lines 216-218 records this as a known gap).  The theorem
evaluates the code at such an update. -/
theorem c1_write_order_no_directory_sync :
    (add_update_monitor (fun _ => false) .okFile 2 .ok ⟨some (.data 1), none, none⟩).trace
        = [.createTmp, .writeTmp, .syncTmp, .statFinal, .copyBk, .openBk, .syncBk,
           .renameTmp, .openFinal, .syncFinal, .removeBk]
    ∧ FsStep.syncDir ∉
        (add_update_monitor (fun _ => false) .okFile 2 .ok ⟨some (.data 1), none, none⟩).trace
    ∧ (add_update_monitor (fun _ => false) .okFile 2 .ok ⟨some (.data 1), none, none⟩).state
        = ⟨some (.data 2), none, none⟩
    ∧ (add_update_monitor (fun _ => false) .okFile 2 .ok ⟨some (.data 1), none, none⟩).result
        = .ok := by
  decide

/-- C2 counterexample: when the filesystem error happens at the
`fs::remove_file(&bk_filename)` step (after the rename has succeeded),
the operation does return `TemporaryFailure`, but the final name now
holds the NEW blob — the previously-committed snapshot is no longer
under the final name (it survives only under the backup name), so the
claim as stated is false at this input. -/
theorem c2_counterexample_new_blob_under_final_name :
    (add_update_monitor (fun stp => stp == FsStep.removeBk) .okFile 2 .ok
        ⟨some (.data 1), none, none⟩).result = .err .TemporaryFailure
    ∧ (add_update_monitor (fun stp => stp == FsStep.removeBk) .okFile 2 .ok
        ⟨some (.data 1), none, none⟩).state.final = some (.data 2)
    ∧ ¬ (add_update_monitor (fun stp => stp == FsStep.removeBk) .okFile 2 .ok
        ⟨some (.data 1), none, none⟩).state.final = some (.data 1)
    ∧ (add_update_monitor (fun stp => stp == FsStep.removeBk) .okFile 2 .ok
        ⟨some (.data 1), none, none⟩).state.bk = some (.data 1) := by
  decide

/-- C2 (amended): for every call to write_snapshot and every filesystem
error occurring at any step, the whole operation aborts and returns
`TemporaryFailure` (a `ChannelMonitorUpdateErr` value, not a crash), and
the previously-committed snapshot is preserved on disk: before the
rename it is left intact under the final name; if the failure occurs
after the rename, the final name holds the new blob and the previous
snapshot is intact under the backup name.  `hstat` says the metadata
probe is truthful when it reports that no snapshot exists, and `hbk0`
says no stale backup artifact predates the call. -/
theorem c2_fs_error_aborts_preserving_snapshot (fail : FsStep → Bool) (stat : StatOutcome)
    (blob : Nat) (inner : UpdateResult) (s st : FSState) (tr : List FsStep)
    (hstat : stat = .errNotFound → s.final = none) (hbk0 : s.bk = none)
    (hfail : write_snapshot_fs fail stat blob s = .failed st tr) :
    (add_update_monitor fail stat blob inner s).result = .err .TemporaryFailure
    ∧ (st.final = s.final ∨ (st.final = some (.data blob) ∧ st.bk = s.final)) := by
  refine ⟨?_, write_snapshot_fs_failed_state hstat hbk0 hfail⟩
  unfold add_update_monitor
  rw [hfail]

/-- C2 witness: a concrete failing run (the `fs::copy` to the backup
name fails) on which the theorem's hypotheses hold. -/
theorem c2_fs_error_aborts_preserving_snapshot_witness :
    (add_update_monitor (fun stp => stp == FsStep.copyBk) .okFile 7 .ok
        ⟨some (.data 3), none, none⟩).result = .err .TemporaryFailure
    ∧ ((FSState.mk (some (.data 3)) (some (.data 7)) none).final
          = (FSState.mk (some (.data 3)) none none).final
       ∨ ((FSState.mk (some (.data 3)) (some (.data 7)) none).final = some (.data 7)
          ∧ (FSState.mk (some (.data 3)) (some (.data 7)) none).bk
              = (FSState.mk (some (.data 3)) none none).final)) :=
  c2_fs_error_aborts_preserving_snapshot (fun stp => stp == FsStep.copyBk) .okFile 7 .ok
    ⟨some (.data 3), none, none⟩ ⟨some (.data 3), some (.data 7), none⟩
    [.createTmp, .writeTmp, .syncTmp, .statFinal] (by decide) rfl (by decide)

/-! ### Startup recovery: `ChannelMonitor::load_from_disk`
    (src/main.rs lines 174-197)

Filenames are modelled as `List Char` (the directory scan guards the
byte operations with `filename.is_ascii()`, under which Rust byte
positions coincide with character positions).  For each directory entry
the code requires `filename.is_ascii() && filename.len() > 65`, parses
the first 64 characters with `Sha256dHash::from_hex` (64 hexadecimal
characters, case-insensitive), skips the character at position 64
without inspecting it, and parses `filename.split_at(65).1.split('.')
.next().unwrap()` — the text from position 65 up to the first `'.'` —
with `str::parse::<u16>`.  Reading the file, deserializing the monitor
and registering it with the inner `SimpleManyChannelMonitor` are
external effects modelled by per-entry oracles. -/

def ascii_char (c : Char) : Bool := c.toNat < 128

def is_hex_char (c : Char) : Bool :=
  c.isDigit || decide (97 ≤ c.toNat ∧ c.toNat ≤ 102) || decide (65 ≤ c.toNat ∧ c.toNat ≤ 70)

/-- `Sha256dHash::from_hex` on a 64-character slice: succeeds exactly on
64 hexadecimal characters; the decoded hash is represented by the
lower-cased hex spelling (hex decoding is case-insensitive). -/
def sha256d_from_hex (l : List Char) : Option (List Char) :=
  if l.length = 64 ∧ l.all is_hex_char then some (l.map Char.toLower) else none

def decimal_value (l : List Char) : Nat :=
  l.foldl (fun acc c => acc * 10 + (c.toNat - 48)) 0

/-- Digits part of a `str::parse::<u16>` call: an optional leading
`'+'` is stripped. -/
def u16_digits (l : List Char) : List Char :=
  if l.head? = some '+' then l.drop 1 else l

/-- `str::parse::<u16>`: an optional leading `'+'`, then at least one
decimal digit, value below 2^16. -/
def parse_u16 (l : List Char) : Option Nat :=
  if u16_digits l ≠ [] ∧ (u16_digits l).all Char.isDigit ∧ decimal_value (u16_digits l) < 65536
  then some (decimal_value (u16_digits l))
  else none

/-- The filename grammar actually implemented by `load_from_disk`
(lines 178-181): ascii, longer than 65 characters, first 64 characters
hexadecimal (the txid), position 64 skipped unchecked, and the text
from position 65 up to the first `'.'` a `u16` (the output index). -/
def parse_monitor_filename (filename : List Char) : Option (List Char × Nat) :=
  if filename.all ascii_char ∧ 65 < filename.length then
    match sha256d_from_hex (filename.take 64) with
    | none => none
    | some txid =>
      match parse_u16 ((filename.drop 65).takeWhile (fun c => c != '.')) with
      | none => none
      | some index => some (txid, index)
  else none

/-- One directory entry at startup: its filename plus oracles for the
three external effects of lines 182-184 — `fs::read` succeeding,
`channelmonitor::ChannelMonitor::read` deserializing, and the inner
`add_update_monitor` registration returning `Ok`. -/
structure DirEntry where
  filename : List Char
  read_ok : Bool
  deser_ok : Bool
  add_ok : Bool
deriving DecidableEq

/-- An entry sets `loaded = true` exactly when every stage of lines
178-187 succeeds. -/
def entry_loads (e : DirEntry) : Bool :=
  (parse_monitor_filename e.filename).isSome && e.read_ok && e.deser_ok && e.add_ok

/-- `ChannelMonitor::load_from_disk` (lines 174-197): scans the
directory entries in order, recovers a `(txid, index)` key for every
entry whose whole chain of checks succeeds, and prints one warning
(`WARNING: Failed to read one of the channel monitor storage files!`)
for every entry that fails any stage; it never aborts the scan.  The
result is the ordered list of recovered keys and the warning count. -/
def load_from_disk : List DirEntry → List (List Char × Nat) × Nat
  | [] => ([], 0)
  | e :: rest =>
    let r := load_from_disk rest
    match parse_monitor_filename e.filename with
    | some k => if e.read_ok && e.deser_ok && e.add_ok then (k :: r.1, r.2) else (r.1, r.2 + 1)
    | none => (r.1, r.2 + 1)

/-- C3 counterexample: a leftover temporary file
`<64 zeros>_1.tmp` is NOT ignored by the loader: its name parses to the
same channel key `(<64 zeros>, 1)` as the committed snapshot name would
(the `.split('.')` at line 181 silently strips the suffix), and with
readable, deserializable contents the entry is added to the recovered
result set with no warning — contradicting the claim that `.tmp`/`.bk`
files are never treated as valid snapshots. -/
theorem c3_counterexample_tmp_file_loaded :
    parse_monitor_filename (List.replicate 64 '0' ++ ['_', '1', '.', 't', 'm', 'p'])
        = some (List.replicate 64 '0', 1)
    ∧ load_from_disk [⟨List.replicate 64 '0' ++ ['_', '1', '.', 't', 'm', 'p'], true, true, true⟩]
        = ([(List.replicate 64 '0', 1)], 0)
    ∧ parse_monitor_filename (List.replicate 64 '0' ++ ['_', '1', '.', 'b', 'k'])
        = some (List.replicate 64 '0', 1) := by
  decide

lemma digit_bne_dot {c : Char} (h : c.isDigit = true) : (c != '.') = true := by
  have hc : c ≠ '.' := by
    intro he
    rw [he] at h
    exact absurd h (by decide)
  simpa using hc

/-- A run satisfying the predicate followed by a failing element is cut
exactly at the failing element by `takeWhile`. -/
lemma takeWhile_append_stop {α : Type} (p : α → Bool) (l : List α) (d : α) (r : List α)
    (h : ∀ c ∈ l, p c = true) (hd : p d = false) :
    (l ++ d :: r).takeWhile p = l := by
  induction l with
  | nil => simp [List.takeWhile_cons, hd]
  | cons a t ih =>
    have ha : p a = true := h a (List.mem_cons_self a t)
    simp only [List.cons_append, List.takeWhile_cons, ha, if_true]
    rw [ih (fun c hc => h c (List.mem_cons_of_mem a hc))]

lemma parse_u16_of_digits {idx : List Char} (hne : idx ≠ [])
    (hdig : idx.all Char.isDigit = true) (hval : decimal_value idx < 65536) :
    parse_u16 idx = some (decimal_value idx) := by
  have hds : u16_digits idx = idx := by
    unfold u16_digits
    rw [if_neg]
    cases idx with
    | nil => simp
    | cons c t =>
      simp only [List.head?_cons, Option.some.injEq]
      intro he
      rw [List.all_cons, Bool.and_eq_true] at hdig
      rw [he] at hdig
      exact absurd hdig.1 (by decide)
  unfold parse_u16
  rw [hds, if_pos ⟨hne, hdig, hval⟩]

/-- The parse of a well-formed snapshot filename, optionally carrying a
dot-led suffix such as `.tmp` or `.bk`: the suffix is stripped by the
`.split('.')` and the name parses to the very same key. -/
lemma parse_monitor_filename_grammar (txid idx ext : List Char)
    (htxlen : txid.length = 64) (htxhex : txid.all is_hex_char = true)
    (htxascii : txid.all ascii_char = true)
    (hidxne : idx ≠ []) (hidxdig : idx.all Char.isDigit = true)
    (hidxascii : idx.all ascii_char = true) (hval : decimal_value idx < 65536)
    (hext : ext = [] ∨ ∃ r, ext = '.' :: r) (hextascii : ext.all ascii_char = true) :
    parse_monitor_filename (txid ++ '_' :: (idx ++ ext))
      = some (txid.map Char.toLower, decimal_value idx) := by
  have hus : ascii_char '_' = true := by decide
  have hall : (txid ++ '_' :: (idx ++ ext)).all ascii_char = true := by
    simp [List.all_append, htxascii, hidxascii, hextascii, hus]
  have hidxpos : 0 < idx.length := List.length_pos.mpr hidxne
  have hlen : 65 < (txid ++ '_' :: (idx ++ ext)).length := by
    simp [List.length_append, htxlen]
    omega
  have htake : (txid ++ '_' :: (idx ++ ext)).take 64 = txid := by
    rw [← htxlen]
    simp
  have hsha : sha256d_from_hex txid = some (txid.map Char.toLower) := by
    unfold sha256d_from_hex
    rw [if_pos ⟨htxlen, htxhex⟩]
  have hdrop : (txid ++ '_' :: (idx ++ ext)).drop 65 = idx ++ ext := by
    have h65 : (65 : Nat) = txid.length + 1 := by omega
    rw [h65]
    simp
  have hcut : (idx ++ ext).takeWhile (fun c => c != '.') = idx := by
    have hdig : ∀ c ∈ idx, (c != '.') = true := by
      intro c hc
      exact digit_bne_dot (by
        rw [List.all_eq_true] at hidxdig
        exact hidxdig c hc)
    rcases hext with rfl | ⟨r, rfl⟩
    · rw [List.append_nil]
      exact List.takeWhile_eq_self_iff.mpr hdig
    · exact takeWhile_append_stop _ idx '.' r hdig (by decide)
  have hu16 : parse_u16 idx = some (decimal_value idx) :=
    parse_u16_of_digits hidxne hidxdig hval
  unfold parse_monitor_filename
  rw [if_pos ⟨hall, hlen⟩, htake, hsha, hdrop, hcut, hu16]

/-- C3 (amended): load_from_disk parses each filename by taking the
first 64 characters as a hexadecimal txid, skipping the character at
position 64 unchecked, and reading the decimal index from position 65 up
to the first `'.'`; consequently a file with a `.tmp` or `.bk` suffix
whose remaining name matches the grammar is NOT ignored — it parses to
exactly the same channel key as the committed snapshot name and, when
its contents are readable and deserializable, it is loaded as a valid
snapshot into the recovered result set. -/
theorem c3_tmp_bk_files_parse_to_same_key (txid idx : List Char)
    (htxlen : txid.length = 64) (htxhex : txid.all is_hex_char = true)
    (htxascii : txid.all ascii_char = true)
    (hidxne : idx ≠ []) (hidxdig : idx.all Char.isDigit = true)
    (hidxascii : idx.all ascii_char = true) (hval : decimal_value idx < 65536) :
    parse_monitor_filename (txid ++ '_' :: (idx ++ []))
        = some (txid.map Char.toLower, decimal_value idx)
    ∧ parse_monitor_filename (txid ++ '_' :: (idx ++ ['.', 't', 'm', 'p']))
        = some (txid.map Char.toLower, decimal_value idx)
    ∧ parse_monitor_filename (txid ++ '_' :: (idx ++ ['.', 'b', 'k']))
        = some (txid.map Char.toLower, decimal_value idx)
    ∧ ∀ rd de ad : Bool,
        entry_loads ⟨txid ++ '_' :: (idx ++ ['.', 't', 'm', 'p']), rd, de, ad⟩
          = (rd && de && ad) := by
  refine ⟨?_, ?_, ?_, ?_⟩
  · exact parse_monitor_filename_grammar txid idx [] htxlen htxhex htxascii hidxne hidxdig
      hidxascii hval (Or.inl rfl) (by decide)
  · exact parse_monitor_filename_grammar txid idx ['.', 't', 'm', 'p'] htxlen htxhex htxascii
      hidxne hidxdig hidxascii hval (Or.inr ⟨['t', 'm', 'p'], rfl⟩) (by decide)
  · exact parse_monitor_filename_grammar txid idx ['.', 'b', 'k'] htxlen htxhex htxascii
      hidxne hidxdig hidxascii hval (Or.inr ⟨['b', 'k'], rfl⟩) (by decide)
  · intro rd de ad
    unfold entry_loads
    rw [parse_monitor_filename_grammar txid idx ['.', 't', 'm', 'p'] htxlen htxhex htxascii
      hidxne hidxdig hidxascii hval (Or.inr ⟨['t', 'm', 'p'], rfl⟩) (by decide)]
    rfl

/-- C3 witness: the amended theorem applied to the concrete stem
`<64 zeros>_7`. -/
theorem c3_tmp_bk_files_parse_to_same_key_witness :
    parse_monitor_filename (List.replicate 64 '0' ++ '_' :: (['7'] ++ []))
        = some ((List.replicate 64 '0').map Char.toLower, decimal_value ['7'])
    ∧ parse_monitor_filename (List.replicate 64 '0' ++ '_' :: (['7'] ++ ['.', 't', 'm', 'p']))
        = some ((List.replicate 64 '0').map Char.toLower, decimal_value ['7'])
    ∧ parse_monitor_filename (List.replicate 64 '0' ++ '_' :: (['7'] ++ ['.', 'b', 'k']))
        = some ((List.replicate 64 '0').map Char.toLower, decimal_value ['7'])
    ∧ ∀ rd de ad : Bool,
        entry_loads ⟨List.replicate 64 '0' ++ '_' :: (['7'] ++ ['.', 't', 'm', 'p']), rd, de, ad⟩
          = (rd && de && ad) :=
  c3_tmp_bk_files_parse_to_same_key (List.replicate 64 '0') ['7'] (by decide) (by decide)
    (by decide) (by decide) (by decide) (by decide) (by decide)

/-- Per-entry bookkeeping of the loader: the recovered keys are exactly
the entries whose full chain succeeds, in directory order, and the
warning count is exactly the number of entries that fail some stage. -/
lemma load_from_disk_counts (d : List DirEntry) :
    (load_from_disk d).1.length = (d.filter entry_loads).length
    ∧ (load_from_disk d).2 = (d.filter (fun e => !entry_loads e)).length := by
  induction d with
  | nil => simp [load_from_disk]
  | cons e rest ih =>
    unfold load_from_disk
    cases hp : parse_monitor_filename e.filename with
    | none =>
      have hl : entry_loads e = false := by simp [entry_loads, hp]
      simp [hl, ih.1, ih.2]
    | some k =>
      cases hr : e.read_ok && e.deser_ok && e.add_ok with
      | true =>
        have hl : entry_loads e = true := by
          simp only [entry_loads, hp, Option.isSome_some, Bool.true_and]
          exact hr
        simp [hr, hl, ih.1, ih.2]
      | false =>
        have hl : entry_loads e = false := by
          simp only [entry_loads, hp, Option.isSome_some, Bool.true_and]
          exact hr
        simp [hr, hl, ih.1, ih.2]

/-- C8: a startup directory containing one corrupted or unparsable file
anywhere among N valid snapshot files yields exactly the N valid
entries and exactly one warning; the scan itself never fails, and an
empty directory (zero recoverable channels) is not an error — it yields
the empty result set and no warning. -/
theorem c8_one_bad_file_recovers_all_valid (pre post : List DirEntry) (bad : DirEntry)
    (hpre : ∀ e ∈ pre, entry_loads e = true)
    (hpost : ∀ e ∈ post, entry_loads e = true)
    (hbad : entry_loads bad = false) :
    (load_from_disk (pre ++ bad :: post)).1.length = pre.length + post.length
    ∧ (load_from_disk (pre ++ bad :: post)).2 = 1
    ∧ load_from_disk [] = ([], 0) := by
  obtain ⟨h1, h2⟩ := load_from_disk_counts (pre ++ bad :: post)
  refine ⟨?_, ?_, rfl⟩
  · rw [h1, List.filter_append, List.filter_cons]
    rw [List.filter_eq_self.mpr hpre, List.filter_eq_self.mpr hpost]
    simp [hbad]
  · rw [h2, List.filter_append, List.filter_cons]
    have hp0 : pre.filter (fun e => !entry_loads e) = [] := by
      rw [List.filter_eq_nil_iff]
      intro e he
      simp [hpre e he]
    have hp1 : post.filter (fun e => !entry_loads e) = [] := by
      rw [List.filter_eq_nil_iff]
      intro e he
      simp [hpost e he]
    rw [hp0, hp1]
    simp [hbad]

/-- C8 witness: one unparsable file between two valid snapshot files. -/
theorem c8_one_bad_file_recovers_all_valid_witness :
    (load_from_disk [⟨List.replicate 64 'a' ++ ['_', '2'], true, true, true⟩,
        ⟨['z'], true, true, true⟩,
        ⟨List.replicate 64 'b' ++ ['_', '3'], true, true, true⟩]).1.length = 2
    ∧ (load_from_disk [⟨List.replicate 64 'a' ++ ['_', '2'], true, true, true⟩,
        ⟨['z'], true, true, true⟩,
        ⟨List.replicate 64 'b' ++ ['_', '3'], true, true, true⟩]).2 = 1
    ∧ load_from_disk [] = ([], 0) :=
  c8_one_bad_file_recovers_all_valid
    [⟨List.replicate 64 'a' ++ ['_', '2'], true, true, true⟩]
    [⟨List.replicate 64 'b' ++ ['_', '3'], true, true, true⟩]
    ⟨['z'], true, true, true⟩ (by decide) (by decide) (by decide)

/-! ### Event reconciler: the `receiver.for_each` closure of
    `EventHandler::setup` (src/main.rs lines 90-163)

One wake-up pass calls `peer_manager.process_events()`, drains
`get_and_clear_pending_events()` into a list, and runs a `for` loop
matching each event.  Payment hashes, preimages, outpoints, transactions,
channel ids and scripts are modelled as `Nat`; the two shared maps of
the handler (`txn_to_broadcast` and `payment_preimages`) as association
lists.  `scriptAddr` models the external
`bitcoin_bech32::WitnessProgram::from_scriptpubkey(...)` conversion,
whose `None` makes the `.expect(...)` at line 101 panic.  The boolean
returned by `channel_manager.claim_funds` only selects a log line and
is not modelled. -/

/-- The handler state: `txn_to_broadcast` (line 82) and
`payment_preimages` (line 83). -/
structure HState where
  txnToBroadcast : List (Nat × Nat)
  preimages : List (Nat × Nat)
deriving DecidableEq

/-- The event kinds dispatched at lines 94-160; `otherEvent` stands for
any kind reaching the `_ => panic!()` arm (line 159). -/
inductive LnEvent
  | fundingGenerationReady (tci : Nat) (value : Nat) (script : Nat)
  | fundingBroadcastSafe (outpoint : Nat)
  | paymentReceived (hash : Nat) (amt : Nat)
  | paymentSent (preimage : Nat)
  | paymentFailed (hash : Nat)
  | pendingHTLCsForwardable (t : Nat)
  | otherEvent
deriving DecidableEq

/-- Externally visible side effects of one dispatched event. -/
inductive HAction
  | startFundingChain (tci : Nat)   -- the returned RPC future of lines 104-122
  | broadcastTx (tx : Nat)          -- broadcaster.broadcast_transaction (line 127)
  | claimFunds (preimage : Nat)     -- channel_manager.claim_funds (line 133)
  | failHtlcBackwards (hash : Nat)  -- channel_manager.fail_htlc_backwards (line 139)
  | sendWakeup                      -- self_sender.unbounded_send(()) (line 142)
  | spawnForwardTimer (t : Nat)     -- tokio::spawn(Delay::new(..)) (line 153)
deriving DecidableEq

/-- Result of dispatching one event: fall through to the next event,
return from the whole pass (`return future::Either::A(...)`, line 104),
or panic. -/
inductive StepResult
  | cont (st : HState) (acts : List HAction)
  | earlyReturn (st : HState) (acts : List HAction)
  | panicked (st : HState) (acts : List HAction)
deriving DecidableEq

/-- The `match event` of src/main.rs lines 94-160. -/
def handleEvent (scriptAddr : Nat → Option Nat) (st : HState) : LnEvent → StepResult
  | .fundingGenerationReady tci _value script =>
    match scriptAddr script with
    | none => .panicked st []
    | some _addr => .earlyReturn st [.startFundingChain tci]
  | .fundingBroadcastSafe outpoint =>
    match List.lookup outpoint st.txnToBroadcast with
    | none => .panicked st []
    | some tx =>
      .cont { st with txnToBroadcast := st.txnToBroadcast.filter (fun p => !(p.1 == outpoint)) }
        [.broadcastTx tx]
  | .paymentReceived hash _amt =>
    match List.lookup hash st.preimages with
    | some p => .cont st [.claimFunds p, .sendWakeup]
    | none => .cont st [.failHtlcBackwards hash, .sendWakeup]
  | .paymentSent _p => .cont st []
  | .paymentFailed _h => .cont st []
  | .pendingHTLCsForwardable t => .cont st [.spawnForwardTimer t]
  | .otherEvent => .panicked st []

inductive PassKind
  | completed
  | earlyReturn
  | panicked
deriving DecidableEq

/-- Outcome of one whole wake-up pass over the drained event list:
final state, accumulated actions, the events that were dispatched (in
order), the drained events that were never dispatched, and how the pass
ended. -/
structure PassOut where
  st : HState
  acts : List HAction
  dispatched : List LnEvent
  remaining : List LnEvent
  outcome : PassKind
deriving DecidableEq

/-- The `for event in events` loop of lines 93-161 over the drained
list. -/
def runPass (scriptAddr : Nat → Option Nat) (st : HState) : List LnEvent → PassOut
  | [] => ⟨st, [], [], [], .completed⟩
  | e :: rest =>
    match handleEvent scriptAddr st e with
    | .panicked st' acts => ⟨st', acts, [e], rest, .panicked⟩
    | .earlyReturn st' acts => ⟨st', acts, [e], rest, .earlyReturn⟩
    | .cont st' acts =>
      let out := runPass scriptAddr st' rest
      ⟨out.st, acts ++ out.acts, e :: out.dispatched, out.remaining, out.outcome⟩

/-- C5 counterexample: for a payment-received event whose identifier is
absent from the preimage table, the handler fails the HTLC backwards
AND STILL emits a new wake-up token (line 142 sits after the whole
if/else, so it runs in the failing branch too) — refuting the claim
that the token is emitted after claiming but not after failing. -/
theorem c5_counterexample_wakeup_emitted_after_fail :
    handleEvent (fun _ => none) ⟨[], []⟩ (.paymentReceived 5 100)
        = .cont ⟨[], []⟩ [.failHtlcBackwards 5, .sendWakeup]
    ∧ HAction.sendWakeup ∈ [HAction.failHtlcBackwards 5, HAction.sendWakeup] := by
  decide

/-- C5 (amended): for every payment-received event, the handler looks
the payment identifier up in the preimage table; if absent it fails the
HTLC backwards and never calls claim_funds; if present it claims with
the stored secret; and a new wake-up token is emitted after the event
is handled in BOTH cases — after claiming and also after failing. -/
theorem c5_preimage_gating (scriptAddr : Nat → Option Nat) (st : HState) (h amt : Nat) :
    (List.lookup h st.preimages = none →
      handleEvent scriptAddr st (.paymentReceived h amt)
        = .cont st [.failHtlcBackwards h, .sendWakeup])
    ∧ ∀ p, List.lookup h st.preimages = some p →
      handleEvent scriptAddr st (.paymentReceived h amt)
        = .cont st [.claimFunds p, .sendWakeup] := by
  constructor
  · intro hnone
    simp [handleEvent, hnone]
  · intro p hp
    simp [handleEvent, hp]

/-- C5 witness: a stored preimage is claimed, with the wake-up token
emitted after it. -/
theorem c5_preimage_gating_witness :
    handleEvent (fun _ => none) ⟨[], [(3, 9)]⟩ (.paymentReceived 3 7)
      = .cont ⟨[], [(3, 9)]⟩ [.claimFunds 9, .sendWakeup] :=
  (c5_preimage_gating (fun _ => none) ⟨[], [(3, 9)]⟩ 3 7).2 9 rfl

/-- C6 counterexample: a broadcast-safe notification whose outpoint has
no entry in the pending-broadcast map makes the handler panic
(`txn.remove(&funding_txo).unwrap()` on `None`, line 126) — the
reconciler does not continue operating, refuting the
report-and-continue claim. -/
theorem c6_counterexample_missing_entry_panics :
    handleEvent (fun _ => none) ⟨[], []⟩ (.fundingBroadcastSafe 4) = .panicked ⟨[], []⟩ [] := by
  decide

/-- C6 (amended): for every broadcast-safe notification whose outpoint
has no matching entry in the pending-broadcast map, the handler fails
loudly — it panics on the `.unwrap()` of the failed removal, aborting
the event-handling task — rather than silently ignoring the event, but
it does NOT report-and-continue. -/
theorem c6_missing_pending_broadcast_panics (scriptAddr : Nat → Option Nat) (st : HState)
    (op : Nat) (hmiss : List.lookup op st.txnToBroadcast = none) :
    handleEvent scriptAddr st (.fundingBroadcastSafe op) = .panicked st [] := by
  simp [handleEvent, hmiss]

/-- C6 witness: concrete map without the outpoint. -/
theorem c6_missing_pending_broadcast_panics_witness :
    handleEvent (fun _ => some 0) ⟨[(9, 8)], []⟩ (.fundingBroadcastSafe 4)
      = .panicked ⟨[(9, 8)], []⟩ [] :=
  c6_missing_pending_broadcast_panics (fun _ => some 0) ⟨[(9, 8)], []⟩ 4 rfl

/-- A pass that completes normally dispatches exactly the drained list
and leaves nothing undispatched. -/
lemma runPass_completed (scriptAddr : Nat → Option Nat) (st : HState) (l : List LnEvent)
    (h : (runPass scriptAddr st l).outcome = .completed) :
    (runPass scriptAddr st l).dispatched = l ∧ (runPass scriptAddr st l).remaining = [] := by
  induction l generalizing st with
  | nil => exact ⟨rfl, rfl⟩
  | cons e rest ih =>
    unfold runPass at h ⊢
    revert h
    cases hev : handleEvent scriptAddr st e with
    | panicked st' acts => intro h; simp at h
    | earlyReturn st' acts => intro h; simp at h
    | cont st' acts =>
      intro h
      dsimp only at h ⊢
      have hrest := ih st' h
      simp [hrest.1, hrest.2]

/-- C9: for every wake-up pass, if the drained event list reaches a
funding-construction-requested (`FundingGenerationReady`) event, the
pass returns at that event (`return future::Either::A(...)`, line 104):
the dispatched events are exactly the prefix up to and including that
event, and every event positioned after it in the same drained list is
never dispatched in that pass (having been cleared from the engine by
`get_and_clear_pending_events`, they are not re-delivered later).
`hpre` says the events before it dispatch normally, and `hsc` says its
output script converts to a SegWit address (otherwise the `.expect` at
line 101 panics first). -/
theorem c9_funding_generation_ends_pass (scriptAddr : Nat → Option Nat) (st : HState)
    (pre post : List LnEvent) (tci v sc : Nat)
    (hpre : (runPass scriptAddr st pre).outcome = .completed)
    (hsc : (scriptAddr sc).isSome = true) :
    (runPass scriptAddr st (pre ++ .fundingGenerationReady tci v sc :: post)).outcome
        = .earlyReturn
    ∧ (runPass scriptAddr st (pre ++ .fundingGenerationReady tci v sc :: post)).dispatched
        = pre ++ [.fundingGenerationReady tci v sc]
    ∧ (runPass scriptAddr st (pre ++ .fundingGenerationReady tci v sc :: post)).remaining
        = post := by
  induction pre generalizing st with
  | nil =>
    obtain ⟨a, ha⟩ := Option.isSome_iff_exists.mp hsc
    simp [runPass, handleEvent, ha]
  | cons e rest ih =>
    simp only [runPass] at hpre
    revert hpre
    simp only [List.cons_append, runPass]
    cases hev : handleEvent scriptAddr st e with
    | panicked st' acts => intro hpre; simp at hpre
    | earlyReturn st' acts => intro hpre; simp at hpre
    | cont st' acts =>
      intro hpre
      dsimp only at hpre ⊢
      have hrest := ih st' hpre
      simp [hrest.1, hrest.2.1, hrest.2.2]

/-- C9 witness: a pass over a drained list holding a payment-sent
confirmation, then a funding-generation event, then a payment-failed
event: the pass ends at the funding event and the payment-failed event
is never dispatched. -/
theorem c9_funding_generation_ends_pass_witness :
    (runPass (fun _ => some 0) ⟨[], []⟩
        [.paymentSent 1, .fundingGenerationReady 3 4 5, .paymentFailed 2]).outcome
        = .earlyReturn
    ∧ (runPass (fun _ => some 0) ⟨[], []⟩
        [.paymentSent 1, .fundingGenerationReady 3 4 5, .paymentFailed 2]).dispatched
        = [.paymentSent 1, .fundingGenerationReady 3 4 5]
    ∧ (runPass (fun _ => some 0) ⟨[], []⟩
        [.paymentSent 1, .fundingGenerationReady 3 4 5, .paymentFailed 2]).remaining
        = [.paymentFailed 2] :=
  c9_funding_generation_ends_pass (fun _ => some 0) ⟨[], []⟩ [.paymentSent 1] [.paymentFailed 2]
    3 4 5 (by decide) rfl

/-! ### Command interpreter, `'s'` (pay) command
    (src/main.rs lines 469-554)

The `'s'` arm splits the text after the command byte on spaces
(`line.split_at(2).1.split(' ')`), parses the first token as a
lightning invoice via the external `lightning_invoice` crate (modelled
by a parse oracle returning `ParsedInvoice`, the projections of the
decoded invoice the code reads), and then resolves the payment amount:
`invoice.amount_pico_btc()` filtered through `amt % 10 != 0` (sub-msat
precision is treated as no amount).  Pubkeys, hashes and route hops are
opaque `Nat`s; the router and send calls are oracles `routeOk`/`sendOk`
since their internals live in the external engine. -/

inductive Network
  | bitcoin
  | testnet
  | regtest
deriving DecidableEq

/-- Projections of a successfully decoded `lightning_invoice::Invoice`
used by the `'s'` arm. -/
structure ParsedInvoice where
  currencyMainnet : Bool          -- Currency::Bitcoin (true) or BitcoinTestnet (false)
  amountPicoBtc : Option Nat      -- invoice.amount_pico_btc()
  payeePubKey : Option Nat        -- invoice.payee_pub_key()
  recoveredPubKey : Nat           -- invoice.recover_payee_pub_key()
  routes : List (List Nat)        -- invoice.routes(), each a list of hops
  expirySeconds : Option Nat      -- invoice.expiry_time().map(|t| t.seconds)
  paymentHash : Nat               -- invoice.payment_hash()
deriving DecidableEq

/-- User-visible outcome of one `'s'` command line (each rejection is
the diagnostic printed before `fail_return!`). -/
inductive SOutcome
  | badInvoice        -- "Bad invoice" (line 551)
  | wrongNetwork      -- "Wrong network on invoice" (line 477)
  | missingAmount     -- "Invoice was missing amount, you should specify one" (line 484)
  | garbageAmount     -- "Provided amount was garbage" (line 492)
  | panicked          -- arg2.unwrap() on None (line 489)
  | payeeMismatch     -- "Invoice had non-equal duplicative target node_id" (line 500)
  | missingFinalCltv  -- "Invoice was missing final CLTV" (line 523)
  | garbageFinalCltv  -- "Invoice had garbage final cltv" (line 527)
  | routeFailed (amt : Nat)  -- "Failed to find route" (line 545)
  | sendFailed (amt : Nat)   -- "Failed to send HTLC" (line 540)
  | sendIssued (amt : Nat)   -- "Sending {} msat" (line 536)
deriving DecidableEq

/-- Lines 505-547: build route hints from the single-hop private
routes, check the final CLTV, request a route and send the payment. -/
def sCommandRoute (inv : ParsedInvoice) (amt : Nat) (routeOk sendOk : Bool) : SOutcome :=
  match (inv.routes.filter (fun r => r.length = 1)), inv.expirySeconds with
  | _, none => .missingFinalCltv
  | _, some secs =>
    if secs > 4294967295 then .garbageFinalCltv
    else if routeOk then (if sendOk then .sendIssued amt else .sendFailed amt)
    else .routeFailed amt

/-- Lines 498-547: the duplicative payee pubkey check, then the route
phase. -/
def sCommandAfterAmt (inv : ParsedInvoice) (amt : Nat) (routeOk sendOk : Bool) : SOutcome :=
  match inv.payeePubKey with
  | some pk =>
    if pk ≠ inv.recoveredPubKey then .payeeMismatch
    else sCommandRoute inv amt routeOk sendOk
  | none => sCommandRoute inv amt routeOk sendOk

/-- The `'s'` arm (lines 469-554).  `inv?` is the invoice parse result
for the first token; `arg2` is `None` when there is no second token,
`Some None` when the second token fails `parse::<u64>`, and
`Some (Some amt)` when it parses.  The amount resolution is lines
479-496: when the invoice carries a (msat-precision) amount, the code
checks `arg2.is_none()` and rejects with "Invoice was missing amount";
when it does not, the code calls `arg2.unwrap()` — a panic when no
second token was given. -/
def sCommand (network : Network) (inv? : Option ParsedInvoice)
    (arg2 : Option (Option Nat)) (routeOk sendOk : Bool) : SOutcome :=
  match inv? with
  | none => .badInvoice
  | some inv =>
    if (if inv.currencyMainnet then Network.bitcoin else Network.testnet) ≠ network then
      .wrongNetwork
    else
      match inv.amountPicoBtc.bind (fun a => if a % 10 ≠ 0 then none else some (a / 10)) with
      | some amt =>
        if arg2.isNone then .missingAmount
        else sCommandAfterAmt inv amt routeOk sendOk
      | none =>
        match arg2 with
        | none => .panicked
        | some none => .garbageAmount
        | some (some amt) => sCommandAfterAmt inv amt routeOk sendOk

/-- Whether the outcome reached the `router.get_route` call at line
530. -/
def route_queried : SOutcome → Bool
  | .routeFailed _ => true
  | .sendFailed _ => true
  | .sendIssued _ => true
  | _ => false

/-- `str::split(' ')` over a character list: maximal runs between
spaces, preserving empty pieces. -/
def split_spaces : List Char → List (List Char)
  | [] => [[]]
  | c :: rest =>
    if c = ' ' then [] :: split_spaces rest
    else (c :: (split_spaces rest).headD []) :: (split_spaces rest).tail

/-- `str::parse::<u64>` for the explicit amount argument (line 489). -/
def parse_u64 (l : List Char) : Option Nat :=
  if u16_digits l ≠ [] ∧ (u16_digits l).all Char.isDigit
      ∧ decimal_value (u16_digits l) < 18446744073709551616
  then some (decimal_value (u16_digits l))
  else none

/-- One whole `s ...` line: the text after `"s "` is split on spaces,
the first token is decoded as an invoice by the external crate
(`invParse` oracle), the second token — when present — is parsed as a
`u64`. -/
def sLine (network : Network) (invParse : List Char → Option ParsedInvoice)
    (rest : List Char) (routeOk sendOk : Bool) : SOutcome :=
  sCommand network (invParse ((split_spaces rest).headD []))
    (((split_spaces rest).get? 1).map parse_u64) routeOk sendOk

/-- Concrete invoice-decoding oracle for the two C4 scenarios: token
`inv1` decodes to a testnet invoice with an embedded amount of 250000
pico-BTC (25000 msat); token `inv0` decodes to the same invoice with a
zero/absent amount field. -/
def c4InvParse : List Char → Option ParsedInvoice :=
  fun l =>
    if l = String.toList "inv1" then some ⟨false, some 250000, none, 0, [], some 40, 11⟩
    else if l = String.toList "inv0" then some ⟨false, none, none, 0, [], some 40, 11⟩
    else none

/-- C4: the claim is the intended behavior (and matches the printed
diagnostics), but the code inverts it.  Evaluating the `'s'` arm: a
command line whose invoice carries an embedded amount and no explicit
amount argument is REJECTED with "Invoice was missing amount, you
should specify one" and issues no route query (the `arg2.is_none()`
check at line 483 sits in the branch where the amount was FOUND); with
a second argument present the embedded amount is used (the argument is
ignored); and a zero-amount invoice with no second argument PANICS at
`arg2.unwrap()` (line 489) instead of printing the diagnostic. -/
theorem c4_amount_resolution_inverted :
    sLine .testnet c4InvParse (String.toList "inv1") true true = .missingAmount
    ∧ route_queried (sLine .testnet c4InvParse (String.toList "inv1") true true) = false
    ∧ sLine .testnet c4InvParse (String.toList "inv1 123") true true = .sendIssued 25000
    ∧ sLine .testnet c4InvParse (String.toList "inv0") true true = .panicked := by
  decide

/-- C7: the command interpreter CAN panic on user input: for every
invoice that decodes successfully, matches the configured network, and
carries no usable embedded amount (`amount_pico_btc()` absent or not
msat-divisible), the `s <invoice>` line with no amount argument reaches
`arg2.unwrap()` on `None` (line 489) and panics instead of printing a
diagnostic — refuting "the interpreter never panics on user input". -/
theorem c7_pay_line_panics (network : Network) (inv : ParsedInvoice) (routeOk sendOk : Bool)
    (hnet : (if inv.currencyMainnet then Network.bitcoin else Network.testnet) = network)
    (hamt : inv.amountPicoBtc.bind (fun a => if a % 10 ≠ 0 then none else some (a / 10)) = none) :
    sCommand network (some inv) none routeOk sendOk = .panicked := by
  simp only [ne_eq, ite_not] at hamt
  simp [sCommand, hamt, hnet]

/-- C7 witness: a decodable testnet invoice whose amount field is 5
pico-BTC (not msat-divisible, so treated as absent), paid with no
amount argument. -/
theorem c7_pay_line_panics_witness :
    sCommand .testnet (some ⟨false, some 5, some 2, 2, [[1]], some 10, 6⟩) none false false
      = .panicked :=
  c7_pay_line_panics .testnet ⟨false, some 5, some 2, 2, [[1]], some 10, 6⟩ false false
    rfl rfl

/-! ### Startup network guard (src/main.rs lines 292-311)

The startup block asserts the RPC node's verification progress and
segwit activation, maps the `chain` field of `getblockchaininfo` to a
network (`_ => panic!("Unknown network type")`), and then panics
(`"LOL, you're insane"`) whenever the selected network is mainnet. -/

inductive StartupResult
  | panicked
  | running (n : Network)
deriving DecidableEq

/-- Lines 298-303: the `match v["chain"].as_str().unwrap()`. -/
def chain_network (chain : List Char) : Option Network :=
  if chain = String.toList "main" then some .bitcoin
  else if chain = String.toList "test" then some .testnet
  else if chain = String.toList "regtest" then some .regtest
  else none

/-- Lines 292-311: the two `assert!`s of the RPC validity check
(modelled by the booleans; a failed assert panics), the chain match,
and the mainnet guard `if network == constants::Network::Bitcoin {
panic!("LOL, you're insane"); }`. -/
def startup_network (verificationProgressOk segwitActive : Bool) (chain : List Char) :
    StartupResult :=
  if !verificationProgressOk then .panicked
  else if !segwitActive then .panicked
  else
    match chain_network chain with
    | none => .panicked
    | some n => if n = .bitcoin then .panicked else .running n

/-- C10: if the startup chain query reports the Bitcoin mainnet chain
(`"main"`), the process panics immediately after the RPC validity
check; and no reachable running state has the node operating on
mainnet. -/
theorem c10_mainnet_guard :
    startup_network true true (String.toList "main") = .panicked
    ∧ ∀ (v s : Bool) (chain : List Char) (n : Network),
        startup_network v s chain = .running n → n ≠ Network.bitcoin := by
  constructor
  · decide
  · intro v s chain n h hn
    subst hn
    unfold startup_network at h
    split at h
    · cases h
    · split at h
      · cases h
      · split at h
        · cases h
        · next m hm =>
          split at h
          · cases h
          · next hnb => cases h; exact hnb rfl

/-- C10 witness: a regtest chain passes the guard and runs off
mainnet. -/
theorem c10_mainnet_guard_witness : Network.regtest ≠ Network.bitcoin :=
  c10_mainnet_guard.2 true true (String.toList "regtest") .regtest (by decide)
